import Mathlib

/-!
Shallow embedding of `pandoc_fignos.py` (pandoc-fignos 2.0.0b1), the pandoc
filter that numbers figures and resolves figure references.

Conventions of the embedding:
* Python strings are Lean `String`s; `None` is `Option.none`.
* Python exceptions (`KeyError` from a missing dict key, `IndexError` from
  indexing an empty string, `AssertionError` from a failed `assert`) are made
  explicit: fallible functions return `Except FilterErr _`.
* The module-level mutable globals `cursec`, `Nreferences`, `references` and
  `has_unnumbered_figures` are threaded as an explicit `FigState`.
* The `references` dict is modelled as an association list where insertion
  conses the new binding in front; `List.lookup` therefore returns the most
  recent write, matching Python dict assignment followed by lookup.
* `uuid.uuid4()` (a fresh random suffix) is passed in as an explicit `uuid`
  argument.
-/

namespace PandocFignos

/-! ## Data model -/

/-- Pandoc attributes of an image, as parsed by `PandocAttributes`:
an identifier, a class list and ordered key/value pairs.  The `secno`
key/value pair is injected by the upstream `insert_secnos` pass of
pandocxnos before `_process_figure` runs. -/
structure Attrs where
  id : String
  classes : List String
  kvs : List (String × String)
deriving DecidableEq

/-- Inline elements that occur in figure captions and caption prefixes. -/
inductive Inline where
  | str (s : String)
  | space
  | math (content : String)
  | rawInline (f : String) (content : String)
deriving DecidableEq

/-- A pandoc `Image` element: `c = [attrs, alt-inlines, [url, title]]`
(the attrs slot is absent for pandoc < 1.16 images, modelled by `none`;
`_process_figure` detects that case via `len(value[0]['c']) == 2`). -/
structure Image where
  attrs : Option Attrs
  alt : List Inline
  url : String
  title : String
deriving DecidableEq

/-- An item of a `Para` element's content list: either an image or some
other inline element. -/
inductive PItem where
  | image (img : Image)
  | inl (i : Inline)
deriving DecidableEq

/-- Block elements produced by `_add_markup`. -/
inductive Block where
  | para (value : List PItem)
  | rawBlock (f : String) (content : String)
deriving DecidableEq

/-- A value of the `references` tracker: either a figure number (`int` in
Python) or a tag (`str` in Python). -/
inductive RefVal where
  | num (n : Nat)
  | tag (s : String)
deriving DecidableEq

/-- Rendering of a `RefVal` by Python `%s` formatting. -/
def refValStr : RefVal → String
  | RefVal.num n => toString n
  | RefVal.tag s => s

/-- The Python exceptions that can escape the embedded functions. -/
inductive FilterErr where
  | keyError
  | indexError
  | assertionError
deriving DecidableEq

/-- The module-level processing state of `pandoc_fignos.py`:
`cursec` (current section, initially `None`), `Nreferences` (counter,
initially 0), `references` (dict mapping a figure id to
`[number-or-tag, secno]`, modelled as an association list), and the
`has_unnumbered_figures` flag. -/
structure FigState where
  cursec : Option String
  Nreferences : Nat
  references : List (String × RefVal × String)
  has_unnumbered_figures : Bool
deriving DecidableEq

/-- The initial global state (source lines 91-99). -/
def initState : FigState :=
  { cursec := none, Nreferences := 0, references := [],
    has_unnumbered_figures := false }

/-- The dict returned by `_process_figure`: the three classification flags,
plus the `attrs` and `caption` entries that are present exactly when the
figure carries attributes. -/
structure Fig where
  is_unnumbered : Bool
  is_unreferenceable : Bool
  is_tagged : Bool
  attrs : Option Attrs
  caption : Option (List Inline)
deriving DecidableEq

/-! ## String helpers mirroring the Python operations used by the filter -/

/-- The straight double quote character. -/
def dquote : Char := '"'

/-- The straight single quote character (ASCII 39). -/
def squote : Char := Char.ofNat 39

/-- Drop a trailing run of the character `c`. -/
def dropRunEnd (c : Char) (l : List Char) : List Char :=
  (l.reverse.dropWhile (fun x => x = c)).reverse

/-- Python `s.strip(c)` for a one-character strip set: removes ALL leading
and ALL trailing occurrences of `c`. -/
def stripAllChar (c : Char) (s : String) : String :=
  String.mk (dropRunEnd c (s.data.dropWhile (fun x => x = c)))

/-- Python `s.replace(' ', '\ ')`: escape every space with a backslash. -/
def escSpace : List Char → List Char
  | [] => []
  | c :: cs => if c = ' ' then '\\' :: ' ' :: escSpace cs else c :: escSpace cs

/-- Python `text.replace(' ', '\ ')` on a string. -/
def pyEscSpaces (s : String) : String := String.mk (escSpace s.data)

/-- Python slice `s[1:-1]`: drop the first and the last character. -/
def dropEnds (s : String) : String := String.mk (s.data.drop 1).dropLast

/-- Whether the first list is an initial run of the second. -/
def charsLead : List Char → List Char → Bool
  | [], _ => true
  | _ :: _, [] => false
  | c :: cs, d :: ds => c = d && charsLead cs ds

/-- Python `s.startswith(p)`. -/
def pyStartsWith (s p : String) : Bool := charsLead p.data s.data

/-- Python `s.endswith(p)`. -/
def pyEndsWith (s p : String) : Bool := charsLead p.data.reverse s.data.reverse

/-- Python `s[0]` on a nonempty string. -/
def headChar (s : String) : Char := s.data.headD (Char.ofNat 0)

/-- Python `s[-1]` on a nonempty string. -/
def lastChar (s : String) : Char := s.data.getLastD (Char.ofNat 0)

/-- Truthiness of `LABEL_PATTERN.match(id)`, where `LABEL_PATTERN` is the
regex `fig:` followed by a starred character class of word characters,
slashes and dashes: since `re.match` anchors at the start only and the
starred class matches the empty string, the match succeeds exactly when
the identifier starts with `fig:`. -/
def labelMatch (s : String) : Bool := pyStartsWith s "fig:"

/-- `PandocAttributes.__setitem__`: replace the value of an existing key,
or append the pair at the end. -/
def setKV : List (String × String) → String → String → List (String × String)
  | [], k, v => [(k, v)]
  | (k1, v1) :: rest, k, v =>
      if k1 = k then (k, v) :: rest else (k1, v1) :: setKV rest k v

/-- The quote-removal step of `_process_figure` (source lines 187-191):
if the tag starts and ends with a straight double quote, Python
`strip('"')` removes ALL leading and trailing double quotes; otherwise, if
it starts and ends with a straight single quote, all leading and trailing
single quotes are removed; otherwise the tag is unchanged.  (Curly quotes
are not handled.)  The caller guarantees the tag is nonempty. -/
def pyStripQuotes (t : String) : String :=
  if headChar t = dquote ∧ lastChar t = dquote then stripAllChar dquote t
  else if headChar t = squote ∧ lastChar t = squote then stripAllChar squote t
  else t

/-! ## Output-format families -/

/-- The formats for which `--number-sections` makes the filter hard-code
section-scoped numbers as tags (source line 179). -/
def secTagFmts : List String := ["html", "html5", "epub", "epub2", "epub3", "docx"]

/-- The HTML-family formats (source lines 212, 230, 265). -/
def htmlFam : List String := ["html", "html5", "epub", "epub2", "epub3"]

/-! ## `_process_figure` -/

/-- Embedding of `_process_figure(value, fmt)` (source lines 134-197).
`uuid` stands for the fresh `str(uuid.uuid4())` suffix; `numbersections`
is the `fignos-number-sections` configuration flag.  Returns the figure
record and the updated global state, or the Python exception that the
source would raise (`KeyError` for a missing `secno` attribute,
`IndexError` for `attrs['tag'][0]` on an empty tag). -/
def processFigure (fmt : String) (numbersections : Bool) (uuid : String)
    (img : Image) (st : FigState) : Except FilterErr (Fig × FigState) :=
  match img.attrs with
  | none =>
      -- `len(value[0]['c']) == 2`: no attributes at all
      Except.ok
        ({ is_unnumbered := true, is_unreferenceable := true, is_tagged := false,
           attrs := none, caption := none },
         { st with has_unnumbered_figures := true })
  | some attrs0 =>
      if labelMatch attrs0.id = false then
        -- the label does not conform to expectations
        Except.ok
          ({ is_unnumbered := true, is_unreferenceable := true, is_tagged := false,
             attrs := some attrs0, caption := some img.alt },
           { st with has_unnumbered_figures := true })
      else
        -- identify unreferenceable figures
        let isBare := attrs0.id = "fig:"
        let attrs1 := if isBare then { attrs0 with id := attrs0.id ++ uuid } else attrs0
        match attrs1.kvs.lookup "secno" with
        | none => Except.error FilterErr.keyError
        | some secno =>
          -- update the current section number
          let secChanged := some secno ≠ st.cursec
          let cursec1 : Option String := if secChanged then some secno else st.cursec
          let n1 : Nat := if secChanged then 1 else st.Nreferences
          -- hard-code section numbers as tags when requested
          let useSecTag :=
            numbersections ∧ fmt ∈ secTagFmts ∧ (attrs1.kvs.lookup "tag").isNone
          let attrs2 :=
            if useSecTag then
              { attrs1 with kvs := setKV attrs1.kvs "tag" (secno ++ "." ++ toString n1) }
            else attrs1
          let n2 : Nat := if useSecTag then n1 + 1 else n1
          -- save reference information
          match attrs2.kvs.lookup "tag" with
          | some tag0 =>
              if tag0 = "" then Except.error FilterErr.indexError
              else
                let tag1 := pyStripQuotes tag0
                let attrs3 := { attrs2 with kvs := setKV attrs2.kvs "tag" tag1 }
                Except.ok
                  ({ is_unnumbered := false, is_unreferenceable := isBare,
                     is_tagged := true, attrs := some attrs3, caption := some img.alt },
                   { cursec := cursec1, Nreferences := n2,
                     references := (attrs3.id, RefVal.tag tag1, secno) :: st.references,
                     has_unnumbered_figures := st.has_unnumbered_figures })
          | none =>
              Except.ok
                ({ is_unnumbered := false, is_unreferenceable := isBare,
                   is_tagged := false, attrs := some attrs2, caption := some img.alt },
                 { cursec := cursec1, Nreferences := n2 + 1,
                   references := (attrs2.id, RefVal.num (n2 + 1), secno) :: st.references,
                   has_unnumbered_figures := st.has_unnumbered_figures })

/-- Fold `_process_figure` over a list of figures in document order,
as the first filter pass does. -/
def processFigureList (fmt : String) (numbersections : Bool) (uuid : String) :
    List Image → FigState → Except FilterErr FigState
  | [], st => Except.ok st
  | img :: rest, st =>
      match processFigure fmt numbersections uuid img st with
      | Except.error e => Except.error e
      | Except.ok (_, st1) => processFigureList fmt numbersections uuid rest st1

/-! ## `_adjust_caption` -/

/-- Embedding of `_adjust_caption(fmt, fig, value)` (source lines 200-237).
`pandocLt117` is the truth value of `PANDOCVERSION < '1.17'`.  The Python
function mutates `value[0]['c'][1]`; the embedding takes the figure's
attributes and current caption and returns the caption list after the
call.  A missing `references` entry would be a Python `KeyError`. -/
def adjustCaption (fmt : String) (pandocLt117 : Bool) (captionname : String)
    (references : List (String × RefVal × String)) (fig : Fig)
    (attrs : Attrs) (caption : List Inline) : Except FilterErr (List Inline) :=
  if fmt = "latex" ∨ fmt = "beamer" then
    -- append a \label if this is referenceable
    if pandocLt117 ∧ fig.is_unreferenceable = false then
      Except.ok (caption ++
        [Inline.rawInline "tex" ("\\protect\\label\x7b" ++ attrs.id ++ "\x7d")])
    else Except.ok caption
  else
    if fig.is_unnumbered then Except.ok caption
    else
      match references.lookup attrs.id with
      | none => Except.error FilterErr.keyError
      | some (RefVal.num n, _) =>
          -- numbered reference
          if fmt ∈ htmlFam then
            Except.ok
              ([Inline.rawInline "html" "<span>", Inline.str captionname,
                Inline.space, Inline.str (toString n ++ ":"),
                Inline.rawInline "html" "</span>"] ++ [Inline.space] ++ caption)
          else
            Except.ok
              ([Inline.str captionname, Inline.space,
                Inline.str (toString n ++ ":")] ++ [Inline.space] ++ caption)
      | some (RefVal.tag text, _) =>
          -- tagged reference
          let els :=
            if pyStartsWith text "$" && pyEndsWith text "$" then
              [Inline.math (dropEnds (pyEscSpaces text)), Inline.str ":"]
            else
              [Inline.str (text ++ ":")]
          if fmt ∈ htmlFam then
            Except.ok
              ([Inline.rawInline "html" "<span>", Inline.str captionname,
                Inline.space] ++ els ++ [Inline.rawInline "html" "</span>"] ++
               [Inline.space] ++ caption)
          else
            Except.ok
              ([Inline.str captionname, Inline.space] ++ els ++
               [Inline.space] ++ caption)

/-! ## `_add_markup` -/

/-- Embedding of `_add_markup(fmt, fig, value)` (source lines 240-280).
`pandocLt116` is `PANDOCVERSION < '1.16'`.  Returns the replacement block
list, or `none` when the action leaves the node in place (Python `None`).
The `has_tagged_figures` global this function raises is consumed only by
`add_tex` and is modelled there as an explicit flag. -/
def addMarkup (fmt : String) (pandocLt116 : Bool)
    (references : List (String × RefVal × String)) (fig : Fig)
    (value : List PItem) : Except FilterErr (Option (List Block)) :=
  if fig.is_unnumbered then
    if fmt = "latex" ∨ fmt = "beamer" then
      Except.ok (some
        [Block.rawBlock "tex" "\\begin\x7bfignos:no-prefix-figure-caption\x7d",
         Block.para value,
         Block.rawBlock "tex" "\\end\x7bfignos:no-prefix-figure-caption\x7d"])
    else Except.ok none
  else
    match fig.attrs with
    | none => Except.error FilterErr.keyError
    | some attrs =>
      if fmt = "latex" ∨ fmt = "beamer" then
        if fig.is_tagged then
          match references.lookup attrs.id with
          | none => Except.error FilterErr.keyError
          | some (v, _) =>
            Except.ok (some
              [Block.rawBlock "tex"
                 ("\\begin\x7bfignos:tagged-figure\x7d[" ++ refValStr v ++ "]"),
               Block.para value,
               Block.rawBlock "tex" "\\end\x7bfignos:tagged-figure\x7d"])
        else Except.ok none
      else if fmt ∈ htmlFam then
        if pandocLt116 ∧ labelMatch attrs.id then
          Except.ok (some
            [Block.rawBlock "html" ("<a name=\"" ++ attrs.id ++ "\"></a>"),
             Block.para value])
        else Except.ok none
      else if fmt = "docx" then
        Except.ok (some
          [Block.rawBlock "openxml"
             ("<w:bookmarkStart w:id=\"0\" w:name=\"" ++ attrs.id ++ "\"/>"),
           Block.para value,
           Block.rawBlock "openxml" "<w:bookmarkEnd w:id=\"0\"/>"])
      else Except.ok none

/-! ## `process_figures` -/

/-- The guard of `process_figures` (source lines 287-288):
`key == 'Para' and len(value) == 1 and value[0]['t'] == 'Image' and
value[0]['c'][-1][1].startswith('fig:')`.  Note that `value[0]['c'][-1]`
is the image's `[url, title]` target pair, so `[-1][1]` is the TITLE. -/
def figMatch (key : String) (value : List PItem) : Bool :=
  match value with
  | [PItem.image img] => key == "Para" && pyStartsWith img.title "fig:"
  | _ => false

/-- Embedding of the `process_figures` action (source lines 283-296).
Returns the action's return value (`none` for Python `None`), the `Para`
content after any in-place caption mutation, and the updated state. -/
def processFigures (fmt : String) (numbersections : Bool)
    (pandocLt116 pandocLt117 : Bool) (captionname uuid : String)
    (key : String) (value : List PItem) (st : FigState) :
    Except FilterErr (Option (List Block) × List PItem × FigState) :=
  match value with
  | [PItem.image img] =>
    if key == "Para" && pyStartsWith img.title "fig:" then
      match processFigure fmt numbersections uuid img st with
      | Except.error e => Except.error e
      | Except.ok (fig, st1) =>
        match fig.attrs, fig.caption with
        | some attrs, some caption =>
          match adjustCaption fmt pandocLt117 captionname st1.references
              fig attrs caption with
          | Except.error e => Except.error e
          | Except.ok newAlt =>
            let value1 := [PItem.image { img with alt := newAlt }]
            match addMarkup fmt pandocLt116 st1.references fig value1 with
            | Except.error e => Except.error e
            | Except.ok ret => Except.ok (ret, value1, st1)
        | _, _ =>
          match addMarkup fmt pandocLt116 st1.references fig value with
          | Except.error e => Except.error e
          | Except.ok ret => Except.ok (ret, value, st1)
    else Except.ok (none, value, st)
  | _ => Except.ok (none, value, st)

/-- The first-pass walk at the block level: apply `process_figures` to
every `Para` block, splicing a returned block list in place of the node
(the pandocfilters `walk` convention). -/
def walkBlocks (fmt : String) (numbersections : Bool)
    (pandocLt116 pandocLt117 : Bool) (captionname uuid : String) :
    List Block → FigState → Except FilterErr (List Block × FigState)
  | [], st => Except.ok ([], st)
  | Block.para v :: rest, st =>
      match processFigures fmt numbersections pandocLt116 pandocLt117
          captionname uuid "Para" v st with
      | Except.error e => Except.error e
      | Except.ok (ret, v1, st1) =>
        match walkBlocks fmt numbersections pandocLt116 pandocLt117
            captionname uuid rest st1 with
        | Except.error e => Except.error e
        | Except.ok (tail, st2) =>
          match ret with
          | some bs => Except.ok (bs ++ tail, st2)
          | none => Except.ok (Block.para v1 :: tail, st2)
  | b :: rest, st =>
      match walkBlocks fmt numbersections pandocLt116 pandocLt117
          captionname uuid rest st with
      | Except.error e => Except.error e
      | Except.ok (tail, st1) => Except.ok (b :: tail, st1)

/-! ## Metadata processing (`process`) -/

/-- A Python value as returned by `pandocxnos.get_meta` for a metadata
field: a string, a list, or a boolean. -/
inductive PyVal where
  | str (s : String)
  | vlist (l : List PyVal)
  | vbool (b : Bool)

/-- Check that every element is a string (`isinstance(name, STRTYPES)`),
returning the strings. -/
def asStrList : List PyVal → Option (List String)
  | [] => some []
  | PyVal.str s :: rest => (asStrList rest).map (fun l => s :: l)
  | _ => none

/-- One step of Python `str.title()` over the character list: an
alphabetic character is uppercased when the previous character is not
alphabetic and lowercased otherwise (ASCII behaviour; the filter's name
options are ASCII). -/
def titleAux : Bool → List Char → List Char
  | _, [] => []
  | prevAlpha, c :: cs =>
      (if c.isAlpha then (if prevAlpha then c.toLower else c.toUpper) else c)
        :: titleAux c.isAlpha cs

/-- Python `str.title()`. -/
def pyTitle (s : String) : String := String.mk (titleAux false s.data)

/-- Default `plusname` (source line 85). -/
def plusDefault : List String := ["fig.", "figs."]

/-- Default `starname` (source line 86). -/
def starDefault : List String := ["Figure", "Figures"]

/-- The result of the `fignos-plus-name` / `fignos-star-name` handling in
`process(meta)`. -/
structure NamesResult where
  plusname : List String
  starname : List String
  plusname_changed : Bool
  starname_changed : Bool
deriving DecidableEq

/-- The `fignos-plus-name` block of `process(meta)` (source lines
423-435): a list value replaces the whole `plusname` pair, a scalar value
replaces only the singular form; then `assert len(plusname) == 2` and
`assert isinstance(name, STRTYPES)` for each form (modelled as
`assertionError`).  Returns the new `plusname` and the `plusname_changed`
flag. -/
def processPlusName (plusOpt : Option PyVal) :
    Except FilterErr (List String × Bool) :=
  match plusOpt with
  | none => Except.ok (plusDefault, false)
  | some tmp =>
    let cur : List PyVal :=
      match tmp with
      | PyVal.vlist l => l
      | v => [v, PyVal.str "figs."]
    if cur.length ≠ 2 then Except.error FilterErr.assertionError
    else
      match asStrList cur with
      | none => Except.error FilterErr.assertionError
      | some plus => Except.ok (plus, decide (plus ≠ plusDefault))

/-- The `fignos-star-name` block of `process(meta)` (source lines
437-447), run against the `starname` in force after the plus block
(`star1`): same list/scalar convention and the same two asserts.  Returns
the new `starname` and the `starname_changed` flag. -/
def processStarName (starOpt : Option PyVal) (star1 : List String) :
    Except FilterErr (List String × Bool) :=
  match starOpt with
  | none => Except.ok (star1, false)
  | some tmp =>
    let curStar : List PyVal :=
      match tmp with
      | PyVal.vlist l => l
      | v => v :: (star1.drop 1).map PyVal.str
    if curStar.length ≠ 2 then Except.error FilterErr.assertionError
    else
      match asStrList curStar with
      | none => Except.error FilterErr.assertionError
      | some star2 => Except.ok (star2, decide (star2 ≠ star1))

/-- Embedding of the `fignos-plus-name` / `fignos-star-name` handling of
`process(meta)` (source lines 423-447).  `plusOpt` / `starOpt` are the
metadata values when the options are present.  When the plus name
changed, the star names are derived by title-casing the plus names
before the star option is examined. -/
def processNames (plusOpt starOpt : Option PyVal) :
    Except FilterErr NamesResult :=
  match processPlusName plusOpt with
  | Except.error e => Except.error e
  | Except.ok (plus, plusChanged) =>
    let star1 := if plusChanged then plus.map pyTitle else starDefault
    match processStarName starOpt star1 with
    | Except.error e => Except.error e
    | Except.ok (star2, starChanged) =>
        Except.ok { plusname := plus, starname := star2,
                    plusname_changed := plusChanged,
                    starname_changed := starChanged }

/-- A run of the filter's first pass, with `main`'s ordering (source lines
552 and 563): the metadata is processed BEFORE any tree traversal, so a
configuration error aborts the run with no block visited. -/
def runFilter (fmt : String) (numbersections : Bool)
    (pandocLt116 pandocLt117 : Bool) (captionname uuid : String)
    (plusOpt starOpt : Option PyVal) (blocks : List Block) (st : FigState) :
    Except FilterErr (List Block × FigState) :=
  match processNames plusOpt starOpt with
  | Except.error e => Except.error e
  | Except.ok _ =>
      walkBlocks fmt numbersections pandocLt116 pandocLt117 captionname uuid
        blocks st

/-! ## Header includes (`add_tex`)

`pandocxnos.add_tex_to_header_includes` lives outside this repository.
Modelled from the spec: each supplemental declaration is appended to the
document's header-includes collection (§4.6); within a single run each
gated declaration is emitted at most once, so the external
duplicate-detection rule never fires for a fresh document. -/

/-- `NO_PREFIX_CAPTION_ENV_TEX` (source lines 306-328). -/
def noPrefixCaptionEnvTex : String :=
  "\n%% pandoc-fignos: environment to disable figure caption prefixes\n\\makeatletter\n\\newcounter\x7bfigno\x7d\n\\newenvironment\x7bfignos:no-prefix-figure-caption\x7d\x7b\n  \\caption@ifcompatibility\x7b\x7d\x7b\n    \\let\\oldthefigure\\thefigure\n    \\let\\oldtheHfigure\\theHfigure\n    \\renewcommand\x7b\\thefigure\x7d\x7bfigno:\\thefigno\x7d\n    \\renewcommand\x7b\\theHfigure\x7d\x7bfigno:\\thefigno\x7d\n    \\stepcounter\x7bfigno\x7d\n    \\captionsetup\x7blabelformat=empty\x7d\n  \x7d\n\x7d\x7b\n  \\caption@ifcompatibility\x7b\x7d\x7b\n    \\captionsetup\x7blabelformat=default\x7d\n    \\let\\thefigure\\oldthefigure\n    \\let\\theHfigure\\oldtheHfigure\n    \\addtocounter\x7bfigure\x7d\x7b-1\x7d\n  \x7d\n\x7d\n\\makeatother\n"

/-- `TAGGED_FIGURE_ENV_TEX` (source lines 331-343). -/
def taggedFigureEnvTex : String :=
  "\n%% pandoc-fignos: environment for tagged figures\n\\newenvironment\x7bfignos:tagged-figure\x7d[1][]\x7b\n  \\let\\oldthefigure\\thefigure\n  \\let\\oldtheHfigure\\theHfigure\n  \\renewcommand\x7b\\thefigure\x7d\x7b#1\x7d\n  \\renewcommand\x7b\\theHfigure\x7d\x7b#1\x7d\n\x7d\x7b\n  \\let\\thefigure\\oldthefigure\n  \\let\\theHfigure\\oldtheHfigure\n  \\addtocounter\x7bfigure\x7d\x7b-1\x7d\n\x7d\n"

/-- `CAPTION_NAME_TEX % captionname` (source lines 347-350; the `%%` of
the template collapses to `%` under Python `%` formatting). -/
def captionNameTex (name : String) : String :=
  "\n% pandoc-fignos: change the caption name\n\\renewcommand\x7b\\figurename\x7d\x7b" ++ name ++ "\x7d\n"

/-- `NUMBER_BY_SECTION_TEX` (source lines 353-356; not `%`-formatted, so
the `%%` stays). -/
def numberBySectionTex : String :=
  "\n%% pandoc-fignos: number figures by section\n\\numberwithin\x7bfigure\x7d\x7bsection\x7d\n"

/-- The cleveref package requirement (source lines 480-483, after `%`
formatting). -/
def cleverefTex (capitalise : Bool) : String :=
  "\n            %% pandoc-fignos: required package\n            \\usepackage" ++
    (if capitalise then "[capitalise]" else "") ++ "\x7bcleveref\x7d\n        "

/-- The caption package requirement (source lines 488-491; this literal is
not `%`-formatted, so its `%%%%` stays). -/
def captionPkgTex : String :=
  "\n            %%%% pandoc-fignos: required package\n            \\usepackage\x7bcaption\x7d\n        "

/-- The `\crefname` override (source lines 496-499, after `%` formatting). -/
def crefnameTex (p0 p1 : String) : String :=
  "\n            %% pandoc-fignos: change cref names\n            \\crefname\x7bfigure\x7d\x7b" ++
    p0 ++ "\x7d\x7b" ++ p1 ++ "\x7d\n        "

/-- The `\Crefname` override (source lines 503-506; the literal begins
with a line continuation, so there is no leading newline). -/
def crefnameStarTex (s0 s1 : String) : String :=
  "            %% pandoc-fignos: change Cref names\n            \\Crefname\x7bfigure\x7d\x7b" ++
    s0 ++ "\x7d\x7b" ++ s1 ++ "\x7d\n        "

/-- The list of TeX blocks `add_tex(meta)` (source lines 455-523) appends
to header-includes, in order.  `cleverefRequired` models
`pandocxnos.cleveref_required()`; the remaining flags are the module
globals consumed by `add_tex`. -/
def addTexSnippets (cleverefRequired capitalise has_unnumbered
    plusChanged starChanged hasTagged : Bool) (captionname : String)
    (numbersections : Bool) (plusname starname : List String) : List String :=
  (if cleverefRequired then [cleverefTex capitalise] else []) ++
  (if has_unnumbered then [captionPkgTex] else []) ++
  (if plusChanged then [crefnameTex (plusname.getD 0 "") (plusname.getD 1 "")] else []) ++
  (if starChanged then [crefnameStarTex (starname.getD 0 "") (starname.getD 1 "")] else []) ++
  (if has_unnumbered then [noPrefixCaptionEnvTex] else []) ++
  (if hasTagged then [taggedFigureEnvTex] else []) ++
  (if captionname ≠ "Figure" then [captionNameTex captionname] else []) ++
  (if numbersections then [numberBySectionTex] else [])

/-- The header-includes metadata after a whole run, following `main`
(source lines 584-585): `add_tex(meta)` runs exactly when the output
format is `latex` or `beamer`; no other step of the run writes to
header-includes. -/
def headerIncludesAfter (fmt : String) (cleverefRequired capitalise
    has_unnumbered plusChanged starChanged hasTagged : Bool)
    (captionname : String) (numbersections : Bool)
    (plusname starname : List String) (hi : List String) : List String :=
  if fmt = "latex" ∨ fmt = "beamer" then
    hi ++ addTexSnippets cleverefRequired capitalise has_unnumbered
      plusChanged starChanged hasTagged captionname numbersections
      plusname starname
  else hi

/-! ## Concrete fixtures used by the theorems -/

/-- A numbered figure image: labelled id, a `secno` attribute, no tag,
and the `fig:` title marker pandoc puts on implicit figures. -/
def mkNumFig (idv secno : String) : Image :=
  { attrs := some { id := idv, classes := [], kvs := [("secno", secno)] },
    alt := [Inline.str "cap"], url := "img.png", title := "fig:" }

/-- A tagged figure image. -/
def mkTagFig (idv secno tagv : String) : Image :=
  { attrs := some { id := idv, classes := [], kvs := [("secno", secno), ("tag", tagv)] },
    alt := [Inline.str "cap"], url := "img.png", title := "fig:" }

/-- An image whose ATTRIBUTE IDENTIFIER is a figure label but whose TITLE
is empty (e.g. a document not produced by pandoc's implicit-figures
markdown path). -/
def idOnlyImg : Image :=
  { attrs := some { id := "fig:a", classes := [], kvs := [("secno", "1")] },
    alt := [Inline.str "cap"], url := "img.png", title := "" }

/-- A tagged `Fig` record over identifier `fig:x`, as `_process_figure`
produces for a tagged figure. -/
def figTagged : Fig :=
  { is_unnumbered := false, is_unreferenceable := false, is_tagged := true,
    attrs := some { id := "fig:x", classes := [], kvs := [] },
    caption := some [Inline.str "c"] }

/-- Attributes of `figTagged`. -/
def attrsX : Attrs := { id := "fig:x", classes := [], kvs := [] }

/-! ## Claim C1 -/

/-- Claim C1: the spec says figures with no explicit tags are numbered
exactly 1..N within a section, the first figure after a section change
getting 1 (Scenario A: `fig:a`,`fig:b`,`fig:c` in section "1" get 1,2,3
and `fig:d` in section "2" gets 1).  The code contradicts this: on a
section change it resets `Nreferences` to 1 (line 171) but the numbered
branch increments BEFORE storing (lines 194-195), so Scenario A stores
2,3,4 and then 2.  (The intent is visible in the code itself: the
`numbersections` branch, lines 181-182, uses the counter as the next
number and increments after use, producing tags "1.1", "1.2", ….)  This
theorem evaluates the embedding on Scenario A. -/
theorem scenarioA_first_figure_gets_two :
    (processFigureList "html" false "u"
        [mkNumFig "fig:a" "1", mkNumFig "fig:b" "1", mkNumFig "fig:c" "1",
         mkNumFig "fig:d" "2"] initState).map
      (fun st => (st.references.lookup "fig:a", st.references.lookup "fig:b",
                  st.references.lookup "fig:c", st.references.lookup "fig:d"))
      = Except.ok (some (RefVal.num 2, "1"), some (RefVal.num 3, "1"),
                   some (RefVal.num 4, "1"), some (RefVal.num 2, "2"))
    ∧ RefVal.num 2 ≠ RefVal.num 1 :=
  ⟨rfl, by decide⟩

/-! ## Claim C2 -/

/-- Claim C2 counterexample: a paragraph holding exactly one image whose
IDENTIFIER begins with `fig:` (but whose title does not) is NOT processed
— the action returns `None` and the state is untouched — refuting the
claim that classification keys on the identifier.  The code keys on
`value[0]['c'][-1][1]`, the image title. -/
theorem labelledIdWithoutFigTitle_not_processed :
    processFigures "html" false false false "Figure" "u" "Para"
        [PItem.image idOnlyImg] initState
      = Except.ok (none, [PItem.image idOnlyImg], initState)
    ∧ labelMatch "fig:a" = true :=
  ⟨rfl, rfl⟩

/-- Claim C2 (amended): `process_figures` classifies a node as a figure
exactly when it is a `Para` whose content is a single image whose TITLE
begins with `fig:`; every non-matching node is left unchanged and the
action returns `None`. -/
theorem processFigures_guard_characterisation :
    ∀ (fmt : String) (ns lt116 lt117 : Bool) (cn uuid key : String)
      (value : List PItem) (st : FigState),
      (figMatch key value = false →
        processFigures fmt ns lt116 lt117 cn uuid key value st
          = Except.ok (none, value, st))
      ∧ (figMatch key value = true ↔
          key = "Para" ∧ ∃ img, value = [PItem.image img]
            ∧ pyStartsWith img.title "fig:" = true) := by
  intro fmt ns lt116 lt117 cn uuid key value st
  constructor
  · intro h
    rcases value with _ | ⟨item, rest⟩
    · rfl
    · rcases item with img | i
      · rcases rest with _ | ⟨i2, rest2⟩
        · simp only [figMatch] at h
          simp only [processFigures, h, Bool.false_eq_true, if_false]
        · rfl
      · rfl
  · rcases value with _ | ⟨item, rest⟩
    · simp [figMatch]
    · rcases item with img | i
      · rcases rest with _ | ⟨i2, rest2⟩
        · simp [figMatch]
        · simp [figMatch]
      · simp [figMatch]

/-- Witness for `processFigures_guard_characterisation` at a concrete
non-matching node. -/
theorem processFigures_guard_characterisation_witness :
    processFigures "html" false false false "Figure" "u" "Str"
        [PItem.inl (Inline.str "x")] initState
      = Except.ok (none, [PItem.inl (Inline.str "x")], initState) :=
  (processFigures_guard_characterisation "html" false false false "Figure"
      "u" "Str" [PItem.inl (Inline.str "x")] initState).1 (by decide)

/-! ## Shared helper lemmas -/

/-- Looking up a key right after `setKV` returns the value just set. -/
theorem lookup_setKV (l : List (String × String)) (k v : String) :
    (setKV l k v).lookup k = some v := by
  induction l with
  | nil => simp [setKV]
  | cons p rest ih =>
      rcases p with ⟨k1, v1⟩
      by_cases h : k1 = k
      · simp [setKV, h]
      · have h2 : (k == k1) = false := beq_eq_false_iff_ne.mpr (fun hh => h hh.symm)
        simp [setKV, h, List.lookup, h2, ih]

/-- A synthesised section tag `<sec>.<n>` is never the empty string. -/
theorem secDotTag_ne_empty (sec : String) (n : Nat) :
    sec ++ "." ++ toString n ≠ "" := by
  intro hx
  have h2 : (sec.data ++ ['.']) ++ (toString n).data = [] := congrArg String.data hx
  rcases List.append_eq_nil.mp h2 with ⟨h3, _⟩
  rcases List.append_eq_nil.mp h3 with ⟨_, h4⟩
  simp at h4

/-- Appending a nonempty suffix changes a string. -/
theorem append_ne_self_of_ne_empty (a b : String) (hb : b ≠ "") : a ++ b ≠ a := by
  intro h
  have h2 : a.data ++ b.data = a.data ++ [] := by
    have h0 := congrArg String.data h
    rw [List.append_nil]
    exact h0
  have h3 : b.data = [] := List.append_cancel_left h2
  exact hb (by cases b; simp at h3; simp [h3])

/-! ## Claim C3 -/

/-- Claim C3 counterexample: for the tag value `""a""` (two layers of
straight double quotes) the code stores `a`, not `"a"`: Python
`strip('"')` removes ALL surrounding quotes, not exactly one layer. -/
theorem tagDoubleQuoteLayers_strippedFully :
    (processFigure "html" false "u" (mkTagFig "fig:t" "1" "\"\"a\"\"") initState).map
        (fun p => p.2.references.lookup "fig:t")
      = Except.ok (some (RefVal.tag "a", "1"))
    ∧ ("a" : String) ≠ "\"a\"" :=
  ⟨rfl, by decide⟩

/-- Claim C3 (amended): for a figure carrying a nonempty `tag` attribute,
`_process_figure` classifies it as tagged and stores, under the figure's
identifier, the pair of the quote-stripped tag and the current section id
— where quote-stripping removes ALL leading and trailing straight double
quotes when the value starts and ends with one, else all leading and
trailing straight single quotes when it starts and ends with one, and
otherwise (curly quotes included) leaves the value unchanged
(`pyStripQuotes`). -/
theorem taggedFigure_stores_strippedTag :
    ∀ (fmt : String) (ns : Bool) (uuid : String) (img : Image) (st : FigState)
      (attrs : Attrs) (t sec : String),
      img.attrs = some attrs →
      labelMatch attrs.id = true →
      attrs.id ≠ "fig:" →
      attrs.kvs.lookup "secno" = some sec →
      attrs.kvs.lookup "tag" = some t →
      t ≠ "" →
      ∃ fig st1, processFigure fmt ns uuid img st = Except.ok (fig, st1)
        ∧ fig.is_tagged = true
        ∧ st1.references = (attrs.id, RefVal.tag (pyStripQuotes t), sec) :: st.references := by
  intro fmt ns uuid img st attrs t sec ha hl hb hsec htag hne
  simp only [processFigure, ha, hl, Bool.true_eq_false, if_false, if_neg hb,
    hsec, htag, Option.isNone_some, Bool.false_eq_true, and_false, false_and,
    if_neg hne]
  exact ⟨_, _, rfl, rfl, rfl⟩

/-- Witness for `taggedFigure_stores_strippedTag` at a concrete tagged
figure with a curly-quoted tag (left unstripped by the code). -/
theorem taggedFigure_stores_strippedTag_witness :
    ∃ fig st1,
      processFigure "html" false "u" (mkTagFig "fig:q" "1" "S1") initState
        = Except.ok (fig, st1)
      ∧ fig.is_tagged = true
      ∧ st1.references = ("fig:q", RefVal.tag (pyStripQuotes "S1"), "1") :: [] :=
  taggedFigure_stores_strippedTag "html" false "u" (mkTagFig "fig:q" "1" "S1")
    initState { id := "fig:q", classes := [], kvs := [("secno", "1"), ("tag", "S1")] }
    "S1" "1" rfl (by decide) (by decide) (by decide) (by decide) (by decide)

/-! ## Claim C7 -/

/-- Claim C7: a figure that carries a `tag` attribute never increments the
per-section counter: if its section id equals the current one, the counter
and section tracker are unchanged; the counter changes (resetting to 1)
only when the section id differs.  Unnumbered figures (no attributes, or a
non-matching identifier) leave the counter, the section tracker and the
reference table untouched. -/
theorem taggedAndUnnumbered_counter_behaviour :
    (∀ (fmt : String) (ns : Bool) (uuid : String) (img : Image) (st : FigState)
       (attrs : Attrs) (t sec : String),
       img.attrs = some attrs →
       labelMatch attrs.id = true →
       attrs.kvs.lookup "secno" = some sec →
       attrs.kvs.lookup "tag" = some t →
       t ≠ "" →
       ∃ fig st1, processFigure fmt ns uuid img st = Except.ok (fig, st1)
         ∧ fig.is_tagged = true
         ∧ (some sec = st.cursec →
              st1.Nreferences = st.Nreferences ∧ st1.cursec = st.cursec)
         ∧ (some sec ≠ st.cursec →
              st1.Nreferences = 1 ∧ st1.cursec = some sec))
    ∧ (∀ (fmt : String) (ns : Bool) (uuid : String) (img : Image) (st : FigState),
        (img.attrs = none ∨
          ∃ a, img.attrs = some a ∧ labelMatch a.id = false) →
        ∃ fig, processFigure fmt ns uuid img st
            = Except.ok (fig, { st with has_unnumbered_figures := true })
          ∧ fig.is_unnumbered = true) := by
  constructor
  · intro fmt ns uuid img st attrs t sec ha hl hsec htag hne
    obtain ⟨aid, acl, akv⟩ := attrs
    change List.lookup "secno" akv = some sec at hsec
    change List.lookup "tag" akv = some t at htag
    by_cases hb : aid = "fig:"
    · subst hb
      simp +contextual [processFigure, ha, hsec, htag, hne,
        show labelMatch "fig:" = true from by decide]
      exact ⟨_, _, ⟨rfl, rfl⟩, rfl, fun h => by simp [h], fun h => by simp [h]⟩
    · simp +contextual [processFigure, ha, hl, hb, hsec, htag, hne]
      exact ⟨_, _, ⟨rfl, rfl⟩, rfl, fun h => by simp [h], fun h => by simp [h]⟩
  · intro fmt ns uuid img st h
    rcases h with h | ⟨a, ha, hl⟩
    · simp [processFigure, h]
    · simp [processFigure, ha, hl]

/-- Witness for `taggedAndUnnumbered_counter_behaviour`: a concrete tagged
figure in the current section leaves the counter at 7, and a concrete
attribute-less image leaves the state untouched apart from the
unnumbered flag. -/
theorem taggedAndUnnumbered_counter_behaviour_witness :
    (∃ fig st1,
      processFigure "html" false "u" (mkTagFig "fig:t" "1" "S1")
          { cursec := some "1", Nreferences := 7, references := [],
            has_unnumbered_figures := false }
        = Except.ok (fig, st1)
      ∧ fig.is_tagged = true
      ∧ st1.Nreferences = 7 ∧ st1.cursec = some "1") := by
  obtain ⟨fig, st1, h1, h2, h3, _⟩ :=
    (taggedAndUnnumbered_counter_behaviour).1 "html" false "u"
      (mkTagFig "fig:t" "1" "S1")
      { cursec := some "1", Nreferences := 7, references := [],
        has_unnumbered_figures := false }
      { id := "fig:t", classes := [], kvs := [("secno", "1"), ("tag", "S1")] }
      "S1" "1" rfl (by decide) (by decide) (by decide) (by decide)
  obtain ⟨h4, h5⟩ := h3 rfl
  exact ⟨fig, st1, h1, h2, h4, h5⟩

/-! ## Claim C8 -/

/-- Claim C8: a figure whose identifier is exactly the bare `fig:` gets a
fresh suffix appended, is marked unreferenceable but not unnumbered, and
its reference-table entry is keyed only under the synthesised identifier
`fig:<uuid>`, which differs from the bare identifier whenever the fresh
suffix is nonempty (so no document-authored reference can name it); in
the default configuration (`numbersections` off) its table value is a
sequence number. -/
theorem bareIdentifier_synthesisedKey :
    ∀ (fmt : String) (ns : Bool) (uuid : String) (img : Image) (st : FigState)
      (attrs : Attrs) (sec : String),
      img.attrs = some attrs →
      attrs.id = "fig:" →
      attrs.kvs.lookup "secno" = some sec →
      attrs.kvs.lookup "tag" = none →
      uuid ≠ "" →
      ∃ fig st1 v, processFigure fmt ns uuid img st = Except.ok (fig, st1)
        ∧ fig.is_unreferenceable = true
        ∧ fig.is_unnumbered = false
        ∧ st1.references = ("fig:" ++ uuid, v, sec) :: st.references
        ∧ "fig:" ++ uuid ≠ "fig:"
        ∧ (ns = false → ∃ n, v = RefVal.num n) := by
  intro fmt ns uuid img st attrs sec ha hb hsec htag hu
  obtain ⟨aid, acl, akv⟩ := attrs
  change aid = "fig:" at hb
  subst hb
  change List.lookup "secno" akv = some sec at hsec
  change List.lookup "tag" akv = none at htag
  have hkey : ("fig:" : String) ++ uuid ≠ "fig:" :=
    append_ne_self_of_ne_empty "fig:" uuid hu
  by_cases hns : ns = true ∧ fmt ∈ secTagFmts
  · rcases hns with ⟨hn1, hn2⟩
    simp +contextual [processFigure, ha, hsec, htag, hn1, hn2, lookup_setKV,
      secDotTag_ne_empty sec _, hkey,
      show labelMatch "fig:" = true from by decide]
    exact ⟨_, _, ⟨rfl, rfl⟩, rfl, rfl, ⟨_, rfl⟩⟩
  · simp +contextual [processFigure, ha, hsec, htag, hns, hkey,
      show labelMatch "fig:" = true from by decide]
    exact ⟨_, _, ⟨rfl, rfl⟩, rfl, rfl, ⟨_, rfl, fun _ => ⟨_, rfl⟩⟩⟩

/-- Witness for `bareIdentifier_synthesisedKey` at a concrete bare-id
figure with fresh suffix `u1`. -/
theorem bareIdentifier_synthesisedKey_witness :
    ∃ fig st1 v,
      processFigure "html" false "u1"
          { attrs := some { id := "fig:", classes := [], kvs := [("secno", "1")] },
            alt := [], url := "img.png", title := "fig:" } initState
        = Except.ok (fig, st1)
      ∧ fig.is_unreferenceable = true
      ∧ fig.is_unnumbered = false
      ∧ st1.references = ("fig:" ++ "u1", v, "1") :: []
      ∧ "fig:" ++ "u1" ≠ "fig:"
      ∧ (false = false → ∃ n, v = RefVal.num n) :=
  bareIdentifier_synthesisedKey "html" false "u1"
    { attrs := some { id := "fig:", classes := [], kvs := [("secno", "1")] },
      alt := [], url := "img.png", title := "fig:" } initState
    { id := "fig:", classes := [], kvs := [("secno", "1")] } "1"
    rfl rfl rfl rfl (by decide)

/-! ## Claim C9 -/

/-- Claim C9: a figure-shaped node carrying a `tag` attribute whose value
is the empty string makes `_process_figure` evaluate `attrs['tag'][0]`,
an out-of-bounds index: the run aborts with an uncaught error instead of
degrading the figure. -/
theorem emptyTag_raisesIndexError :
    ∀ (fmt : String) (ns lt116 lt117 : Bool) (cn uuid : String) (img : Image)
      (st : FigState) (attrs : Attrs) (sec : String),
      img.attrs = some attrs →
      labelMatch attrs.id = true →
      pyStartsWith img.title "fig:" = true →
      attrs.kvs.lookup "secno" = some sec →
      attrs.kvs.lookup "tag" = some "" →
      processFigures fmt ns lt116 lt117 cn uuid "Para" [PItem.image img] st
        = Except.error FilterErr.indexError := by
  intro fmt ns lt116 lt117 cn uuid img st attrs sec ha hl htitle hsec htag
  obtain ⟨aid, acl, akv⟩ := attrs
  change List.lookup "secno" akv = some sec at hsec
  change List.lookup "tag" akv = some "" at htag
  have hpf : processFigure fmt ns uuid img st = Except.error FilterErr.indexError := by
    by_cases hb : aid = "fig:"
    · subst hb
      simp [processFigure, ha, hsec, htag,
        show labelMatch "fig:" = true from by decide]
    · simp [processFigure, ha, hl, hb, hsec, htag]
  simp [processFigures, htitle, hpf]

/-- Witness for `emptyTag_raisesIndexError` at a concrete empty-tag
figure. -/
theorem emptyTag_raisesIndexError_witness :
    processFigures "html" false false false "Figure" "u" "Para"
        [PItem.image (mkTagFig "fig:t" "1" "")] initState
      = Except.error FilterErr.indexError :=
  emptyTag_raisesIndexError "html" false false false "Figure" "u"
    (mkTagFig "fig:t" "1" "") initState
    { id := "fig:t", classes := [], kvs := [("secno", "1"), ("tag", "")] } "1"
    rfl (by decide) (by decide) (by decide) (by decide)

/-! ## Claim C4 -/

/-- The spec's wording of the math-tag condition, for comparison with the
code's test: the tag text is delimited by a single PAIR of dollar
markers, i.e. it has at least two characters and starts and ends with a
dollar sign. -/
def specPairDelimited (t : String) : Prop :=
  2 <= t.length ∧ pyStartsWith t "$" = true ∧ pyEndsWith t "$" = true

instance (t : String) : Decidable (specPairDelimited t) := by
  unfold specPairDelimited
  infer_instance

/-- Claim C4 counterexample: the one-character tag `$` is NOT delimited by
a pair of dollar markers, yet the code renders it as an (empty) inline
math element: the code's test is `startswith('$') and endswith('$')`,
which the single character `$` passes. -/
theorem singleDollarTag_renderedAsMath :
    adjustCaption "docx" false "Figure" [("fig:x", RefVal.tag "$", "1")] figTagged
        attrsX [Inline.str "c"]
      = Except.ok [Inline.str "Figure", Inline.space, Inline.math "",
                   Inline.str ":", Inline.space, Inline.str "c"]
    ∧ ¬ specPairDelimited "$" :=
  ⟨rfl, by decide⟩

/-- Claim C4 (amended): for a tagged figure in a non-TeX format, the
caption prefix contains an inline math element if and only if the stored
tag text STARTS AND ENDS with a dollar sign (the one-character text `$`
included); in the math case the content is the tag text with first and
last characters stripped and every space escaped as a backslash-space,
followed by a `:` string, and otherwise the prefix carries the literal
tag text immediately followed by `:`. -/
theorem taggedCaption_mathIff :
    ∀ (fmt : String) (lt117 : Bool) (cn : String)
      (refs : List (String × RefVal × String)) (fig : Fig) (attrs : Attrs)
      (caption : List Inline) (t sec : String),
      fmt ≠ "latex" → fmt ≠ "beamer" →
      fig.is_unnumbered = false →
      refs.lookup attrs.id = some (RefVal.tag t, sec) →
      (∀ m, Inline.math m ∉ caption) →
      ∃ res, adjustCaption fmt lt117 cn refs fig attrs caption = Except.ok res
        ∧ ((∃ m, Inline.math m ∈ res) ↔ (pyStartsWith t "$" && pyEndsWith t "$") = true)
        ∧ ((pyStartsWith t "$" && pyEndsWith t "$") = true →
             Inline.math (dropEnds (pyEscSpaces t)) ∈ res ∧ Inline.str ":" ∈ res)
        ∧ ((pyStartsWith t "$" && pyEndsWith t "$") = false →
             Inline.str (t ++ ":") ∈ res) := by
  intro fmt lt117 cn refs fig attrs caption t sec h1 h2 hun hlook hnomath
  have hfmt : ¬ (fmt = "latex" ∨ fmt = "beamer") := by
    rintro (h | h)
    exacts [h1 h, h2 h]
  simp only [adjustCaption, if_neg hfmt, hun, Bool.false_eq_true, if_false, hlook]
  by_cases hc : (pyStartsWith t "$" && pyEndsWith t "$") = true
  · rw [if_pos hc]
    by_cases hh : fmt ∈ htmlFam <;> [rw [if_pos hh]; rw [if_neg hh]] <;>
    · refine ⟨_, rfl, ?_, ?_, ?_⟩
      · simp [hc]
      · intro _
        constructor <;> simp
      · intro hcf
        rw [hc] at hcf
        cases hcf
  · rw [if_neg hc]
    have hcf : (pyStartsWith t "$" && pyEndsWith t "$") = false :=
      Bool.not_eq_true _ |>.mp hc
    by_cases hh : fmt ∈ htmlFam <;> [rw [if_pos hh]; rw [if_neg hh]] <;>
    · refine ⟨_, rfl, ?_, ?_, ?_⟩
      · rw [hcf]
        simp only [Bool.false_eq_true, iff_false]
        rintro ⟨m, hm⟩
        simp [List.mem_cons, List.mem_append, hnomath m] at hm
      · intro hcc
        rw [hcc] at hcf
        cases hcf
      · intro _
        simp

/-- Witness for `taggedCaption_mathIff` at the literal tag `S1` in docx
output. -/
theorem taggedCaption_mathIff_witness :
    ∃ res, adjustCaption "docx" false "Figure"
        [("fig:x", RefVal.tag "S1", "1")] figTagged attrsX [Inline.str "c"]
        = Except.ok res
      ∧ Inline.str ("S1" ++ ":") ∈ res := by
  obtain ⟨res, hres, _, _, h4⟩ :=
    taggedCaption_mathIff "docx" false "Figure"
      [("fig:x", RefVal.tag "S1", "1")] figTagged attrsX [Inline.str "c"]
      "S1" "1" (by decide) (by decide) rfl rfl (by simp)
  exact ⟨res, hres, h4 (by decide)⟩

/-! ## Claim C5 -/

/-- A well-shaped value for a name-pair metadata option: absent, a single
string (singular form only), or a list of exactly two strings. -/
def shapeOK : Option PyVal → Prop
  | none => True
  | some (PyVal.str _) => True
  | some (PyVal.vlist [PyVal.str _, PyVal.str _]) => True
  | _ => False

/-- The star-name block never raises on a well-shaped option when the
incumbent star names are a pair. -/
theorem processStarName_ok (so : Option PyVal) (star1 : List String)
    (h2 : star1.length = 2) (hso : shapeOK so) :
    (processStarName so star1).isOk = true := by
  rcases so with _ | v
  · rfl
  · rcases v with s | l | b
    · rcases star1 with _ | ⟨a, star2⟩
      · simp at h2
      · rcases star2 with _ | ⟨b2, star3⟩
        · simp at h2
        · rcases star3 with _ | ⟨c, star4⟩
          · simp [processStarName, asStrList, Except.isOk, Except.toBool]
          · simp at h2
    · rcases l with _ | ⟨x, l2⟩
      · exact hso.elim
      · rcases x with s1 | l1 | b1
        · rcases l2 with _ | ⟨y, l3⟩
          · exact hso.elim
          · rcases y with s2 | l2b | b2
            · rcases l3 with _ | ⟨z, l4⟩
              · simp [processStarName, asStrList, Except.isOk, Except.toBool]
              · exact hso.elim
            · exact hso.elim
            · exact hso.elim
        · exact hso.elim
        · exact hso.elim
    · exact hso.elim

/-- Claim C5: a `fignos-plus-name` or `fignos-star-name` list of length
other than two, or a form that is not a string, makes `process` raise
(a failing `assert`), and through `main`'s ordering the run aborts before
any traversal; a well-shaped configuration never triggers the abort. -/
theorem nameOptionShape_abortsBeforeTraversal :
    (∀ (l : List PyVal) (fmt : String) (ns lt116 lt117 : Bool)
       (cn uuid : String) (blocks : List Block) (st : FigState),
       l.length ≠ 2 →
       processNames (some (PyVal.vlist l)) none
           = Except.error FilterErr.assertionError
       ∧ runFilter fmt ns lt116 lt117 cn uuid (some (PyVal.vlist l)) none
           blocks st = Except.error FilterErr.assertionError)
    ∧ (∀ l : List PyVal, l.length ≠ 2 →
        processNames none (some (PyVal.vlist l))
          = Except.error FilterErr.assertionError)
    ∧ (∀ (b : Bool) (s : String),
        processNames (some (PyVal.vlist [PyVal.vbool b, PyVal.str s])) none
          = Except.error FilterErr.assertionError)
    ∧ (∀ po so, shapeOK po → shapeOK so → (processNames po so).isOk = true) := by
  refine ⟨?_, ?_, ?_, ?_⟩
  · intro l fmt ns lt116 lt117 cn uuid blocks st h
    have h1 : processNames (some (PyVal.vlist l)) none
        = Except.error FilterErr.assertionError := by
      simp [processNames, processPlusName, h]
    exact ⟨h1, by simp [runFilter, h1]⟩
  · intro l h
    simp [processNames, processPlusName, processStarName, h]
  · intro b s
    rfl
  · intro po so hpo hso
    rcases po with _ | v
    · have h1 : processPlusName none = Except.ok (plusDefault, false) := rfl
      simp only [processNames, h1]
      have h2 := processStarName_ok so starDefault (by rfl) hso
      rcases hok : processStarName so starDefault with e | ⟨star2, sch⟩
      · rw [hok] at h2
        simp [Except.isOk, Except.toBool] at h2
      · simp [hok, Except.isOk, Except.toBool]
    · rcases v with s | l | b
      · have h1 : processPlusName (some (PyVal.str s))
            = Except.ok ([s, "figs."],
                decide (([s, "figs."] : List String) ≠ plusDefault)) := by
          simp [processPlusName, asStrList]
        simp only [processNames, h1]
        have hlen : (if decide (([s, "figs."] : List String) ≠ plusDefault) = true
            then ([s, "figs."] : List String).map pyTitle
            else starDefault).length = 2 := by
          cases decide (([s, "figs."] : List String) ≠ plusDefault) <;>
            simp [starDefault]
        have h2 := processStarName_ok so _ hlen hso
        rcases hok : processStarName so
            (if decide (([s, "figs."] : List String) ≠ plusDefault) = true
             then ([s, "figs."] : List String).map pyTitle
             else starDefault) with e | ⟨star2, sch⟩
        · rw [hok] at h2
          simp [Except.isOk, Except.toBool] at h2
        · simp [hok, Except.isOk, Except.toBool]
      · rcases l with _ | ⟨x, l2⟩
        · exact hpo.elim
        · rcases x with s1 | l1 | b1
          · rcases l2 with _ | ⟨y, l3⟩
            · exact hpo.elim
            · rcases y with s2 | l2b | b2
              · rcases l3 with _ | ⟨z, l4⟩
                · have h1 : processPlusName
                      (some (PyVal.vlist [PyVal.str s1, PyVal.str s2]))
                      = Except.ok ([s1, s2],
                          decide (([s1, s2] : List String) ≠ plusDefault)) := by
                    simp [processPlusName, asStrList]
                  simp only [processNames, h1]
                  have hlen : (if decide (([s1, s2] : List String) ≠ plusDefault) = true
                      then ([s1, s2] : List String).map pyTitle
                      else starDefault).length = 2 := by
                    cases decide (([s1, s2] : List String) ≠ plusDefault) <;>
                      simp [starDefault]
                  have h2 := processStarName_ok so _ hlen hso
                  rcases hok : processStarName so _ with e | ⟨star2, sch⟩
                  · rw [hok] at h2
                    simp [Except.isOk, Except.toBool] at h2
                  · simp [hok, Except.isOk, Except.toBool]
                · exact hpo.elim
              · exact hpo.elim
              · exact hpo.elim
          · exact hpo.elim
          · exact hpo.elim
      · exact hpo.elim

/-- Witness for `nameOptionShape_abortsBeforeTraversal`: a one-element
plus-name list aborts, and a single-string plus name does not. -/
theorem nameOptionShape_abortsBeforeTraversal_witness :
    processNames (some (PyVal.vlist [PyVal.str "a"])) none
      = Except.error FilterErr.assertionError
    ∧ (processNames (some (PyVal.str "Fig.")) none).isOk = true :=
  ⟨(nameOptionShape_abortsBeforeTraversal.1 [PyVal.str "a"] "html" false false
      false "Figure" "u" [] initState (by decide)).1,
   nameOptionShape_abortsBeforeTraversal.2.2.2 (some (PyVal.str "Fig.")) none
     trivial trivial⟩

/-! ## Claim C6 -/

/-- Claim C6: header-includes is modified only for the TeX-like formats
`latex` and `beamer` — for any other format the whole run leaves it
unchanged — and for a TeX-like format with the caption name overridden to
`Fig.`, exactly one caption-name override directive is appended,
whatever the other flags are. -/
theorem headerIncludes_texOnly :
    (∀ (fmt : String) (cr cap unn pc sc tg : Bool) (cn : String) (ns : Bool)
       (pn sn : List String) (hi : List String),
       fmt ≠ "latex" → fmt ≠ "beamer" →
       headerIncludesAfter fmt cr cap unn pc sc tg cn ns pn sn hi = hi)
    ∧ (∀ (fmt : String) (cr cap unn tg ns : Bool) (hi : List String),
        fmt = "latex" ∨ fmt = "beamer" →
        headerIncludesAfter fmt cr cap unn false false tg "Fig." ns
            plusDefault starDefault hi
          = hi ++ addTexSnippets cr cap unn false false tg "Fig." ns
              plusDefault starDefault
        ∧ (addTexSnippets cr cap unn false false tg "Fig." ns plusDefault
             starDefault).count (captionNameTex "Fig.") = 1) := by
  constructor
  · intro fmt cr cap unn pc sc tg cn ns pn sn hi h1 h2
    simp only [headerIncludesAfter]
    rw [if_neg (by rintro (h | h); exacts [h1 h, h2 h])]
  · intro fmt cr cap unn tg ns hi hfmt
    constructor
    · simp only [headerIncludesAfter]
      rw [if_pos hfmt]
    · cases cr <;> cases cap <;> cases unn <;> cases tg <;> cases ns <;> decide

/-- Witness for `headerIncludes_texOnly`: an html run leaves
header-includes unchanged, and a latex run with caption name `Fig.`
appends the caption-name directive exactly once. -/
theorem headerIncludes_texOnly_witness :
    headerIncludesAfter "html" true true true true true true "Fig." true
        plusDefault starDefault ["x"] = ["x"]
    ∧ (addTexSnippets true true true false false true "Fig." true plusDefault
        starDefault).count (captionNameTex "Fig.") = 1 :=
  ⟨headerIncludes_texOnly.1 "html" true true true true true true "Fig." true
      plusDefault starDefault ["x"] (by decide) (by decide),
   (headerIncludes_texOnly.2 "latex" true true true true true ["x"]
      (Or.inl rfl)).2⟩

/-! ## Claim C10 -/

/-- Claim C10: a `fignos-plus-name` different from the default also
replaces the star names with the title-cased plus names, and an
explicitly supplied star-name list, processed afterwards, takes
precedence over that derived value. -/
theorem plusNameDerivesStarName :
    ∀ (p a b : String),
      (p ≠ "fig." →
        processNames (some (PyVal.str p)) none
          = Except.ok { plusname := [p, "figs."],
                        starname := [pyTitle p, pyTitle "figs."],
                        plusname_changed := true, starname_changed := false })
      ∧ (∃ r, processNames (some (PyVal.str p))
                  (some (PyVal.vlist [PyVal.str a, PyVal.str b]))
                = Except.ok r
              ∧ r.starname = [a, b]) := by
  intro p a b
  constructor
  · intro hp
    have hd : decide (([p, "figs."] : List String) ≠ plusDefault) = true := by
      simp [plusDefault, hp]
    simp [processNames, processPlusName, processStarName, asStrList, hd]
  · refine ⟨_, rfl, rfl⟩

/-- Witness for `plusNameDerivesStarName` at the plus name `Fig.`:
the star names become the title-cased plus names. -/
theorem plusNameDerivesStarName_witness :
    processNames (some (PyVal.str "Fig.")) none
      = Except.ok { plusname := ["Fig.", "figs."],
                    starname := [pyTitle "Fig.", pyTitle "figs."],
                    plusname_changed := true, starname_changed := false } :=
  (plusNameDerivesStarName "Fig." "A" "B").1 (by decide)

end PandocFignos
